import Mathlib

namespace Cotton

/-!
Verification of the request-dispatch core of the cotton framework
(`core/route-utils.js`, `core/middleware-utils.js`, `core/module-utils.js`,
`core/http-serve-utils.js`).

Strings from the JavaScript side are modelled as `List Char`; JS runtime
values crossing the middleware boundary are modelled by `JSValue`; fallible
JS computations (a function body that may throw) are modelled by
`Except String _`, the `String` being the thrown value.
-/

/-! ## Route matcher (`core/route-utils.js`)

`getMatchingRoute` normalizes the request path and every route key to end
in a trailing slash, replaces every `:[^\/]+` run of a route key by the
regex class `[^\/]+`, anchors the pattern and matches case-insensitively.
The regexes built by the source contain only literal characters and that
one wildcard class (route keys are plain path patterns), so the compiled
pattern is modelled as a list of tokens: a literal character or a
non-slash one-or-more wildcard. -/

/-- A token of the compiled route pattern: a literal character, or the
regex class `[^\/]+` (one or more non-slash characters, greedy). -/
inductive RTok where
  | lit (c : Char)
  | wild
deriving DecidableEq, Repr

/-- `/\/$/.test(s) ? s : s + "/"`: append a trailing slash unless one is
already present. -/
def normalizeSlash (s : List Char) : List Char :=
  if s.getLast? = some '/' then s else s ++ ['/']

/-- Scanner for the textual replacement `route.replace(/:[^\/]+/g, …)`.
The Boolean state records whether we are inside a `:[^\/]+` run that has
already been replaced by a wildcard token.  When `cap` is true the
replacement string is `:([^\\/]+)` (the key-side regex, which keeps the
literal colon in front of the capturing class); when `cap` is false it is
`[^\\/]+` (the filter/url-side regex). -/
def compileGo (cap : Bool) : Bool → List Char → List RTok
  | _, [] => []
  | true, c :: rest =>
      if c = '/' then .lit '/' :: compileGo cap false rest
      else compileGo cap true rest
  | false, c :: rest =>
      if c = ':' then
        match rest with
        | [] => [.lit ':']
        | r :: _ =>
            if r = '/' then .lit ':' :: compileGo cap false rest
            else if cap then .lit ':' :: .wild :: compileGo cap true rest
            else .wild :: compileGo cap true rest
      else .lit c :: compileGo cap false rest

/-- The anchored case-insensitive pattern built from a (already
slash-normalized) route key for filtering and for value extraction:
every `:[^\/]+` run becomes one wildcard class. -/
def compileRoute (route : List Char) : List RTok := compileGo false false route

/-- The key-side pattern (`match_regex` in the source): every `:[^\/]+`
run becomes a literal `:` followed by a capturing wildcard class. -/
def compileKeyPattern (route : List Char) : List RTok := compileGo true false route

/-- Anchored match of a compiled pattern against a string, case-insensitive
(the `i` flag), returning the list of substrings captured by the wildcard
classes.  The wildcard is greedy with backtracking, as in the JS engine:
prefer to extend the current run, close it only if the remainder fails. -/
def matchCaps : List RTok → List Char → Option (List (List Char))
  | [], [] => some []
  | [], _ :: _ => none
  | .lit _ :: _, [] => none
  | .lit c :: ts, x :: xs =>
      if c.toLower = x.toLower then matchCaps ts xs else none
  | .wild :: _, [] => none
  | .wild :: ts, x :: xs =>
      if x = '/' then none
      else
        match matchCaps (.wild :: ts) xs with
        | some (cap :: caps) => some ((x :: cap) :: caps)
        | _ =>
            match matchCaps ts xs with
            | some caps => some ([x] :: caps)
            | none => none

/-- The predicate of the source's `filter`: the route key's anchored
case-insensitive pattern matches the normalized request path. -/
def matchesRoute (route pathname : List Char) : Bool :=
  (matchCaps (compileRoute (normalizeSlash route)) (normalizeSlash pathname)).isSome

/-- JS object-key update (`params[k] = v`, or a spread `{...o, [k]: v}`):
an existing key keeps its position and gets the new value, a fresh key is
appended at the end — JS objects preserve string-key insertion order. -/
def upsert {β : Type} (o : List (List Char × β)) (k : List Char) (v : β) :
    List (List Char × β) :=
  if o.any (fun kv => kv.1 = k) then
    o.map (fun kv => if kv.1 = k then (k, v) else kv)
  else o ++ [(k, v)]

/-- Parameter extraction for the winning route key: capture the parameter
names by matching the key against its own key-side pattern, capture the
values from the normalized path, and zip them when the counts agree
(otherwise the parameter object stays empty). -/
def routeParams (route pathname : List Char) : List (List Char × List Char) :=
  let nm := normalizeSlash route
  match matchCaps (compileKeyPattern nm) nm,
        matchCaps (compileRoute nm) (normalizeSlash pathname) with
  | some ks, some vs =>
      if ks.length = vs.length then
        (ks.zip vs).foldl (fun acc kv => upsert acc kv.1 kv.2) []
      else []
  | _, _ => []

/-- `getMatchingRoute`: filter the route keys (in table-iteration order) by
pattern match against the request path, take the first match and extract
its parameters; an empty filter result gives the empty outcome. -/
def getMatchingRoute (routes : List (List Char)) (pathname : List Char) :
    Option (List Char × List (List Char × List Char)) :=
  match routes.filter (fun route => matchesRoute route pathname) with
  | [] => none
  | m :: _ => some (m, routeParams m pathname)

/-! ## Middleware evaluator (`core/middleware-utils.js`)

`getFormattedMiddlewareOutput` invokes the middleware (awaiting both
natively-async functions and returned promises), catches a thrown/rejected
invocation as `[error, null]`, and otherwise normalizes the returned value
through a `switch (true)` over `===`/`typeof` tests.  JS runtime values are
modelled by `JSValue`; note that in JS `typeof null` is `"object"`, and
`"allow" in null` throws a `TypeError` — that throw happens outside the
function's `try`, so it rejects `getFormattedMiddlewareOutput` itself. -/

/-- A JS runtime value as far as the middleware boundary observes it. -/
inductive JSValue where
  | vUndefined
  | vNull
  | vTrue
  | vFalse
  | vNum (n : Int)
  | vStr (s : List Char)
  | vObj (fields : List (List Char × JSValue))

/-- JS `typeof`. -/
def jsTypeof : JSValue → List Char
  | .vUndefined => "undefined".data
  | .vNull => "object".data
  | .vTrue => "boolean".data
  | .vFalse => "boolean".data
  | .vNum _ => "number".data
  | .vStr _ => "string".data
  | .vObj _ => "object".data

/-- JS `v === true`. -/
def isTripleEqTrue : JSValue → Bool
  | .vTrue => true
  | _ => false

/-- JS `v === false`. -/
def isTripleEqFalse : JSValue → Bool
  | .vFalse => true
  | _ => false

/-- Own-property lookup on a plain JS object literal. -/
def objFind (fields : List (List Char × JSValue)) (k : List Char) : Option JSValue :=
  (fields.find? (fun kv => kv.1 = k)).map (fun kv => kv.2)

/-- JS `o[k]` on a plain object: the property value, or `undefined`. -/
def objGet (fields : List (List Char × JSValue)) (k : List Char) : JSValue :=
  (objFind fields k).getD .vUndefined

/-- JS `k in o` on a plain object (no relevant prototype properties). -/
def keyInObj (k : List Char) (fields : List (List Char × JSValue)) : Bool :=
  (objFind fields k).isSome

/-- The `defaultDenyResponse` object of `getFormattedMiddlewareOutput`. -/
def defaultDenyResponse : List (List Char × JSValue) :=
  [("allow".data, .vFalse), ("code".data, .vNum 401),
   ("message".data, .vStr "This action is not allowed.".data),
   ("contentType".data, .vStr "text/plain".data)]

/-- The `Object.keys(defaultDenyResponse).reduce` of the object branch:
fold over the default keys, overriding the accumulator (which starts as a
copy of the default deny object) with the middleware object's value
whenever it has the key. -/
def reduceMerge : List (List Char) → List (List Char × JSValue) →
    List (List Char × JSValue) → List (List Char × JSValue)
  | [], _, acc => acc
  | k :: ks, fields, acc =>
      if keyInObj k fields then reduceMerge ks fields (upsert acc k (objGet fields k))
      else reduceMerge ks fields acc

/-- The `switch (true)` of `getFormattedMiddlewareOutput`, normalizing the
awaited middleware return value.  The `.error` outcome models the
`TypeError` thrown by `"allow" in middlewareOutput` when the value is
`null` (JS `typeof null` is `"object"`, so `null` reaches the object
branch); that throw is not inside the function's `try`. -/
def formatMiddlewareOutput (mOut : JSValue) :
    Except (List Char) (List (List Char × JSValue)) :=
  if isTripleEqTrue mOut = true ∨ jsTypeof mOut = "undefined".data then
    .ok [("allow".data, .vTrue)]
  else if isTripleEqFalse mOut = true then
    .ok defaultDenyResponse
  else if jsTypeof mOut = "string".data then
    .ok (upsert defaultDenyResponse "message".data mOut)
  else if jsTypeof mOut = "object".data then
    match mOut with
    | .vObj fields =>
        .ok (reduceMerge (defaultDenyResponse.map (fun kv => kv.1)) fields defaultDenyResponse)
    | _ => .error "TypeError: Cannot use in operator to search for allow in null".data
  else
    .ok defaultDenyResponse

/-- `getFormattedMiddlewareOutput`, taking the awaited outcome of the
middleware invocation (`.error` = the invocation threw or rejected).  The
outer `Except` is the function's own promise: `.error` means the function
itself rejected (the `null` case above); `.ok (.error e)` is the source's
`[error, null]` resolution, `.ok (.ok out)` its `[null, out]`. -/
def getFormattedMiddlewareOutput (invocation : Except (List Char) JSValue) :
    Except (List Char) (Except (List Char) (List (List Char × JSValue))) :=
  match invocation with
  | .error e => .ok (.error e)
  | .ok v =>
      match formatMiddlewareOutput v with
      | .error t => .error t
      | .ok out => .ok (.ok out)

/-- The normalization table exactly as the spec words it (for comparison
with the source's `formatMiddlewareOutput`): `true`/`undefined` allow;
`false` is the default deny; a string is the default deny with that
message; an object is the default deny shallow-merged with whichever of
the four decision keys the object defines; anything else is the default
deny. -/
def specMiddlewareDecision : JSValue → List (List Char × JSValue)
  | .vTrue => [("allow".data, .vTrue)]
  | .vUndefined => [("allow".data, .vTrue)]
  | .vStr s =>
      [("allow".data, .vFalse), ("code".data, .vNum 401),
       ("message".data, .vStr s), ("contentType".data, .vStr "text/plain".data)]
  | .vObj fields =>
      defaultDenyResponse.map
        (fun kv => if keyInObj kv.1 fields then (kv.1, objGet fields kv.1) else kv)
  | _ => defaultDenyResponse

/-! ## Loader resolver (`core/module-utils.js`, `getLoaderData`)

The loader function obtained from the dynamically loaded module is
modelled by its esbuild-async detection flag and the awaited outcome of
invoking it.  The outer `try` of `getLoaderData` wraps the dynamic
module resolution AND the synchronous invocation `loaderFunc()`; only the
branch for a function detected as async has its own inner `try`. -/

/-- The default-exported loader function: whether `isMethodAsync` detects
it as async, and the outcome of invoking it (`.error` = it threw, or, for
an async function, its promise rejected). -/
structure LoaderFunc where
  detectedAsync : Bool
  invocation : Except (List Char) JSValue

/-- Diagnostic of the inner catch (async loader rejected). -/
def loaderAsyncErrMsg (lf route : List Char) : List Char :=
  "Exception in loader method in '".data ++ lf
    ++ "' while processing route '".data ++ route ++ "'.".data

/-- Diagnostic of the outer catch (module failed to resolve, or any
exception escaping the branches inside the outer try). -/
def loaderOuterErrMsg (lf route : List Char) : List Char :=
  "Either '".data ++ lf
    ++ "' not found or an exception occurred in the loader method for route '".data
    ++ route ++ "'.".data

/-- The body of the outer `try` of `getLoaderData`: resolve the module
(`.error` = the import threw), then branch on async detection; the async
branch catches its own rejection, the synchronous call's exception
propagates out of the body (to be caught by the outer catch). -/
def loaderTryBody (lf route : List Char)
    (importResult : Except (List Char) LoaderFunc) :
    Except (List Char) (Option (List Char) × JSValue) :=
  match importResult with
  | .error e => .error e
  | .ok f =>
      if f.detectedAsync then
        match f.invocation with
        | .ok v => .ok (none, v)
        | .error _ => .ok (some (loaderAsyncErrMsg lf route), .vNull)
      else
        match f.invocation with
        | .ok v => .ok (none, v)
        | .error e => .error e

/-- `getLoaderData`: `[null, undefined]` when the route has no configured
loader; otherwise run the try body, and let the outer catch turn any
escaping exception into the `[diagnostic, null]` resolution.  The pair is
the source's `[error, data]` tuple; the outer `Except` would be a
rejection of `getLoaderData` itself (which the source never produces: the
outer catch returns normally). -/
def getLoaderData (loaderFile : Option (List Char)) (route : List Char)
    (importResult : Except (List Char) LoaderFunc) :
    Except (List Char) (Option (List Char) × JSValue) :=
  match loaderFile with
  | none => .ok (none, .vUndefined)
  | some lf =>
      match loaderTryBody lf route importResult with
      | .ok r => .ok r
      | .error _ => .ok (some (loaderOuterErrMsg lf route), .vNull)

/-- Whether an `Except` computation returned normally. -/
def isOkE {α β : Type} : Except α β → Bool
  | .ok _ => true
  | .error _ => false

/-! ## Page serving (`core/http-serve-utils.js`, `servePage`)

After the loader and the page renderer have produced their `[error, …]`
tuples, `servePage` substitutes three placeholder markers of the
`index.html` template (first occurrence each, as JS `String.replace` with
a string pattern does) and always answers 200 `text/html`.  The model
takes the template content and the tuple components as inputs; the
`index.html`-missing 500 branch is outside it. -/

/-- JS truthiness of a nullable string (`null`/`""` falsy). -/
def truthyOpt : Option (List Char) → Bool
  | some s => !s.isEmpty
  | none => false

/-- JS `String.replace` with a plain string pattern: replace the first
occurrence only (an empty pattern inserts at the start). -/
def replaceFirst : List Char → List Char → List Char → List Char
  | [], pat, rep => if pat.isEmpty then rep else []
  | x :: xs, pat, rep =>
      if pat.isPrefixOf (x :: xs) then rep ++ (x :: xs).drop pat.length
      else x :: replaceFirst xs pat rep

/-- The hydration script tag (`mainjs` in the source). -/
def mainjsTag : List Char :=
  "<script defer type=\"module\" src=\"/client/main.js\"></script>".data

/-- `!(page_error || loader_error)`: the hydration tag is injected only
when neither the page renderer nor the loader reported an error. -/
def hydrationIncluded (pageError loaderError : Option (List Char)) : Bool :=
  !(truthyOpt pageError || truthyOpt loaderError)

/-- The replacement for the `<!--scripts-->` marker: the serialized cotton
data, the dev-mode websocket client, and conditionally the hydration
tag. -/
def scriptsBlock (cottonJson wsJs : List Char) (devMode : Bool)
    (loaderError pageError : Option (List Char)) : List Char :=
  "\n          <script>\n            window.__COTTON_DATA__ = ".data
    ++ cottonJson ++ ";\n            ".data
    ++ (if devMode then wsJs else [])
    ++ "\n          </script>\n          ".data
    ++ (if hydrationIncluded pageError loaderError then mainjsTag else [])
    ++ "\n          ".data

/-- Stylesheet link tags. -/
def globalCssTag : List Char := "<link rel=\"stylesheet\" href=\"/global.css\" />".data

/-- Stylesheet link tag for the module css. -/
def moduleCssTag : List Char := "<link rel=\"stylesheet\" href=\"/module.css\" />".data

/-- The replacement for the `<!--css-->` marker. -/
def cssBlock (globalCssExists moduleCssExists : Bool) : List Char :=
  (if globalCssExists then globalCssTag else []) ++ "\n          ".data
    ++ (if moduleCssExists then moduleCssTag else [])

/-- The replacement for the `<!--page-->` marker:
`page_error || loader_error || page_html` — the first truthy of the page
renderer's error, the loader's error and the rendered html (JS `||`
returns the last operand when all are falsy, and `String.replace` coerces
a `null` replacement to the text `"null"`). -/
def pageSlot (pageError loaderError pageHtml : Option (List Char)) : List Char :=
  if truthyOpt pageError then pageError.getD []
  else if truthyOpt loaderError then loaderError.getD []
  else
    match pageHtml with
    | some h => h
    | none => "null".data

/-- An HTTP response written by the dispatch core. -/
structure HttpResp where
  status : Nat
  contentType : List Char
  body : List Char
deriving DecidableEq, Repr

/-- The html assembled by `servePage`'s successful `readFile` callback:
substitute the scripts marker, then the css marker, then the page
marker. -/
def servePageHtml (template cottonJson wsJs : List Char) (devMode : Bool)
    (loaderError pageError pageHtml : Option (List Char))
    (globalCssExists moduleCssExists : Bool) : List Char :=
  replaceFirst
    (replaceFirst
      (replaceFirst template "<!--scripts-->".data
        (scriptsBlock cottonJson wsJs devMode loaderError pageError))
      "<!--css-->".data (cssBlock globalCssExists moduleCssExists))
    "<!--page-->".data (pageSlot pageError loaderError pageHtml)

/-- `servePage`'s response: always 200 `text/html` with the assembled
html. -/
def servePage (template cottonJson wsJs : List Char) (devMode : Bool)
    (loaderError pageError pageHtml : Option (List Char))
    (globalCssExists moduleCssExists : Bool) : HttpResp :=
  ⟨200, "text/html".data,
   servePageHtml template cottonJson wsJs devMode loaderError pageError pageHtml
     globalCssExists moduleCssExists⟩

/-- A concrete `index.html`-shaped template, used by the C3 statements. -/
def c3DemoTemplate : List Char :=
  "<html><head><!--css--></head><body id=\"root\"><!--page--></body><!--scripts--></html>".data

/-! ## API dispatcher (`core/http-serve-utils.js`, `serveApi`)

`serveApi` joins the request pathname under `src` with the platform path
separator and extracts the module path and the trailing method-name
segment with a backslash regex; the model mirrors the resulting
segment-level behaviour and is faithful for clean pathnames (segments of
plain characters, no `.`/`..` segments, no backslashes).  The resolved
module is modelled by its optional default export (primary middleware)
and its named exports; response handlers are modelled by the outcome the
dispatcher's `try` observes when invoking them. -/

/-- Splitting on a separator, keeping empty pieces (so the piece count is
the separator count plus one). -/
def splitKeep (sep : Char) : List Char → List (List Char)
  | [] => [[]]
  | c :: rest =>
      let r := splitKeep sep rest
      if c = sep then [] :: r
      else
        match r with
        | h :: t => (c :: h) :: t
        | [] => [[c]]

/-- The non-empty path segments of a pathname. -/
def pathSegments (p : List Char) : List (List Char) :=
  (splitKeep '/' p).filter (fun s => !s.isEmpty)

/-- Outcome of `serveApi`'s path analysis: the two early 400 rejections,
or the module url and method-name segment to dispatch on. -/
inductive ApiParse where
  | invalidApi (apiUrl : List Char)
  | noEndpoint (apiUrl : List Char)
  | dispatch (apiUrl mname : List Char)
deriving DecidableEq, Repr

/-- `serveApi`'s path analysis.  `join("src", path)` produces
`src\seg1\…\segn\`; the replace regex
`^(src\api(?:\.+)*\(?:[^\]+))\([^\]+)\$` needs at least two segments
after `api`, strips the last one as the method name and leaves the rest
as the module path; `relative(join("src","api"), module_path)` is empty —
the first 400 — exactly when the path is just `/api`; a missing method
name is the second 400. -/
def parseApiPath (pathname : List Char) : ApiParse :=
  let segs := pathSegments (normalizeSlash pathname)
  match segs with
  | [] => .noEndpoint []
  | [s] => if s = "api".data then .invalidApi "api".data else .noEndpoint s
  | [a, b] => .noEndpoint (List.intercalate "/".data [a, b])
  | a :: b :: c :: rest =>
      if a = "api".data then
        .dispatch (List.intercalate "/".data ((a :: b :: c :: rest).dropLast))
          ((c :: rest).getLastD [])
      else .noEndpoint (List.intercalate "/".data (a :: b :: c :: rest))

/-- JS truthiness. -/
def jsTruthy : JSValue → Bool
  | .vTrue => true
  | .vFalse => false
  | .vNull => false
  | .vUndefined => false
  | .vNum n => n != 0
  | .vStr s => !s.isEmpty
  | .vObj _ => true

/-- JS string coercion (as in template-literal interpolation or string
concatenation). -/
def jsToString : JSValue → List Char
  | .vUndefined => "undefined".data
  | .vNull => "null".data
  | .vTrue => "true".data
  | .vFalse => "false".data
  | .vNum n => (toString n).data
  | .vStr s => s
  | .vObj _ => "[object Object]".data

/-- `v ?? "text/plain"` used as a header value. -/
def nullishCoalesceCT (v : JSValue) : List Char :=
  match v with
  | .vUndefined => "text/plain".data
  | .vNull => "text/plain".data
  | w => jsToString w

/-- `v ?? 401` used as a status code.  A present non-numeric code would
make Node's `writeHead` throw; the claims only exercise numeric or absent
codes, so other shapes are folded to 401 here. -/
def denyStatusCode (v : JSValue) : Nat :=
  match v with
  | .vUndefined => 401
  | .vNull => 401
  | .vNum n => n.toNat
  | _ => 401

/-- `new RegExp(pattern, "i").test(target)` for the method-constraint
check: the constraint string is used as an unanchored case-insensitive
regular expression.  For constraints built of plain characters and
top-level `|` alternation — the only shapes an HTTP-method constraint
takes — the test succeeds exactly when some alternative occurs as a
substring of the target, case-insensitively. -/
def regexTestI (pattern target : List Char) : Bool :=
  (splitKeep '|' pattern).any
    (fun alt => decide ((alt.map Char.toLower) <:+: (target.map Char.toLower)))

/-- A middleware function as the evaluator observes it: the awaited
outcome of its invocation. -/
structure MWFunc where
  invocation : Except (List Char) JSValue

/-- A named export of an API module: the optional HTTP `method`
constraint string, the optional endpoint-level middleware, and the
`response` handler (`some` = a truthy handler, whose field is the outcome
the dispatcher's `try` observes when invoking it). -/
structure ApiExport where
  method : Option (List Char)
  middleware : Option MWFunc
  response : Option (Except (List Char) Unit)

/-- A resolved API module: the default export when it is a function
(primary middleware), and the named exports in declaration order. -/
structure ApiModule where
  defaultExport : Option MWFunc
  exports : List (List Char × ApiExport)

/-- The request as `serveApi` reads it: the parsed pathname of `req.url`
and `req.method`. -/
structure ApiRequest where
  pathname : List Char
  method : Option (List Char)

/-- What `serveApi` did: whether the `Access-Control-Allow-Methods`
header was set, whether the `response` handler was invoked, and the
response the dispatcher itself wrote (`none` = the handler owns the
response stream). -/
structure ServeApiResult where
  allowMethodsHeader : Bool
  invokedHandler : Bool
  written : Option HttpResp
deriving DecidableEq, Repr

/-- Message of the first 400 rejection. -/
def invalidApiMsg (u : List Char) : List Char :=
  "Invalid api call with url '/".data ++ u ++ "'".data

/-- Message of the second 400 rejection. -/
def noEndpointMsg (u : List Char) : List Char :=
  "No endpoint specified in the api url '/".data ++ u ++ "'".data

/-- Message of the primary-middleware 500 (also produced by an import
failure, which the same `try` catches). -/
def primaryMwErrMsg (u : List Char) : List Char :=
  "An error occured in the primary middleware at '".data ++ u
    ++ "'. See server log for more info.".data

/-- Message of the missing-named-export 500. -/
def notDefinedMsg (mname u : List Char) : List Char :=
  "Endpoint '".data ++ mname ++ "' is not defined or exported from '".data
    ++ u ++ "'.".data

/-- Message of the method-mismatch 404. -/
def methodMismatchMsg (mname ms actual u : List Char) : List Char :=
  "Endpoint '".data ++ mname ++ "' expected HTTP ".data ++ ms
    ++ " but received HTTP ".data ++ actual ++ " at '".data ++ u ++ "'.".data

/-- Message of the secondary-middleware 500. -/
def secondaryMwErrMsg (u mname : List Char) : List Char :=
  "An error occured in the middleware at '".data ++ u ++ "/".data ++ mname
    ++ "' endpoint. See server logs for more info.".data

/-- Message of the missing-`response` 404. -/
def noResponseMsg (u mname : List Char) : List Char :=
  "response() is not defined in '".data ++ u ++ "/".data ++ mname
    ++ "' endpoint.".data

/-- Message of the handler-failure 500. -/
def responseErrMsg (u mname : List Char) : List Char :=
  "An error occured in the response() at '".data ++ u ++ "/".data ++ mname
    ++ " endpoint'. See server logs for more info.".data

/-- Step 7: invoke the `response` handler (absence is a 404; a handler
success writes nothing — the handler owns the response; an exception or
awaited rejection is caught as a 500). -/
def serveApiResponse (ex : ApiExport) (u mname : List Char) : ServeApiResult :=
  match ex.response with
  | none => ⟨true, false, some ⟨404, "text/plain".data, noResponseMsg u mname⟩⟩
  | some (.ok _) => ⟨true, true, none⟩
  | some (.error _) => ⟨true, true, some ⟨500, "text/plain".data, responseErrMsg u mname⟩⟩

/-- Step 5: the endpoint-level middleware.  The source does not check the
evaluator's error slot here: on `[error, null]` the subsequent
`secondaryMiddlewareOutput.allow` throws a TypeError, which the same
`try` catches — either way the 500 below; a deny writes the decision's
code (`?? 401`), its raw `contentType` (no `?? "text/plain"` on this
path) and its message (no prefix). -/
def serveApiSecondary (ex : ApiExport) (u mname : List Char) : ServeApiResult :=
  match ex.middleware with
  | none => serveApiResponse ex u mname
  | some mw =>
      match getFormattedMiddlewareOutput mw.invocation with
      | .error _ => ⟨true, false, some ⟨500, "text/plain".data, secondaryMwErrMsg u mname⟩⟩
      | .ok (.error _) => ⟨true, false, some ⟨500, "text/plain".data, secondaryMwErrMsg u mname⟩⟩
      | .ok (.ok out) =>
          if jsTruthy (objGet out "allow".data) then serveApiResponse ex u mname
          else ⟨true, false, some ⟨denyStatusCode (objGet out "code".data),
                 jsToString (objGet out "contentType".data),
                 jsToString (objGet out "message".data)⟩⟩

/-- Step 4: the HTTP-method constraint.  A truthy `method` string is used
as an unanchored case-insensitive regex against `req.method ?? "GET"`; a
failed test is a 404 whose message interpolates the raw `req.method`
(`undefined` when absent). -/
def serveApiMethodCheck (req : ApiRequest) (ex : ApiExport) (u mname : List Char) :
    ServeApiResult :=
  match ex.method with
  | some ms =>
      if !ms.isEmpty && !(regexTestI ms (req.method.getD "GET".data)) then
        ⟨true, false, some ⟨404, "text/plain".data,
          methodMismatchMsg mname ms
            (match req.method with | some s => s | none => "undefined".data) u⟩⟩
      else serveApiSecondary ex u mname
  | none => serveApiSecondary ex u mname

/-- Step 3: look up the named export for the method-name segment; absence
is always the `not defined or exported` 500. -/
def serveApiLookup (req : ApiRequest) (m : ApiModule) (u mname : List Char) :
    ServeApiResult :=
  match m.exports.find? (fun kv => kv.1 = mname) with
  | none => ⟨true, false, some ⟨500, "text/plain".data, notDefinedMsg mname u⟩⟩
  | some kv => serveApiMethodCheck req kv.2 u mname

/-- Steps 1–2: import the module (an import failure is caught by the
primary-middleware `try`, hence the primary 500 message) and, when the
default export is a function, run it as primary middleware: an evaluator
error or its own throw is a 500; a deny writes the decision's code
(`?? 401`), contentType (`?? "text/plain"`) and `"PRIMARY: " + message`;
no default export means no primary middleware at all. -/
def serveApiDispatch (req : ApiRequest) (importResult : Except (List Char) ApiModule)
    (u mname : List Char) : ServeApiResult :=
  match importResult with
  | .error _ => ⟨true, false, some ⟨500, "text/plain".data, primaryMwErrMsg u⟩⟩
  | .ok m =>
      match m.defaultExport with
      | none => serveApiLookup req m u mname
      | some f =>
          match getFormattedMiddlewareOutput f.invocation with
          | .error _ => ⟨true, false, some ⟨500, "text/plain".data, primaryMwErrMsg u⟩⟩
          | .ok (.error _) => ⟨true, false, some ⟨500, "text/plain".data, primaryMwErrMsg u⟩⟩
          | .ok (.ok out) =>
              if jsTruthy (objGet out "allow".data) then serveApiLookup req m u mname
              else ⟨true, false, some ⟨denyStatusCode (objGet out "code".data),
                     nullishCoalesceCT (objGet out "contentType".data),
                     "PRIMARY: ".data ++ jsToString (objGet out "message".data)⟩⟩

/-- `serveApi`: the two path rejections answer 400 before the
`Access-Control-Allow-Methods` header is set; the header is set right
after them, before the import, covering every dispatch outcome. -/
def serveApi (req : ApiRequest) (importResult : Except (List Char) ApiModule) :
    ServeApiResult :=
  match parseApiPath req.pathname with
  | .invalidApi u => ⟨false, false, some ⟨400, "text/plain".data, invalidApiMsg u⟩⟩
  | .noEndpoint u => ⟨false, false, some ⟨400, "text/plain".data, noEndpointMsg u⟩⟩
  | .dispatch u mname => serveApiDispatch req importResult u mname

/-- Whether the primary-middleware stage lets the dispatch proceed: no
default export, or its evaluation yields an allow decision. -/
def primaryPasses (m : ApiModule) : Bool :=
  match m.defaultExport with
  | none => true
  | some f =>
      match getFormattedMiddlewareOutput f.invocation with
      | .ok (.ok out) => jsTruthy (objGet out "allow".data)
      | _ => false

/-- The head of a filtered list is the first element satisfying the
predicate. -/
lemma head?_filter {α : Type} (p : α → Bool) (l : List α) :
    (l.filter p).head? = l.find? p := by
  induction l with
  | nil => rfl
  | cons a t ih => by_cases h : p a <;> simp [List.filter_cons, List.find?, h, ih]

/-- Appending a slash to a string with no trailing slash gives the same
slash-normalized form. -/
lemma normalizeSlash_concat (p : List Char) (hp : p.getLast? ≠ some '/') :
    normalizeSlash (p ++ ['/']) = normalizeSlash p := by
  unfold normalizeSlash
  rw [List.getLast?_concat]
  simp [hp]

/-- The matcher's outcome is the first route key in table order whose
pattern matches. -/
lemma getMatchingRoute_eq_find (routes : List (List Char)) (p : List Char) :
    getMatchingRoute routes p
      = (routes.find? (fun r => matchesRoute r p)).map (fun r => (r, routeParams r p)) := by
  have hf := head?_filter (fun r => matchesRoute r p) routes
  cases h : routes.filter (fun route => matchesRoute route p) with
  | nil => rw [h] at hf; simp [getMatchingRoute, h, ← hf]
  | cons m t => rw [h] at hf; simp [getMatchingRoute, h, ← hf]

/-- Claim C1: the route matcher returns at most one route (the model's
return type is an `Option`, a single route or nothing), and the route it
returns is the first route key in table-iteration order whose pattern —
each `:name` segment treated as a non-slash wildcard, anchored,
case-insensitive — matches the request path; adding a trailing slash to a
slashless request path, or removing it again, never changes the outcome,
and likewise toggling the trailing slash of a route key never changes
whether the key matches nor the parameters it extracts. -/
theorem c1_route_matcher (routes : List (List Char)) (p k : List Char)
    (hp : p.getLast? ≠ some '/') (hk : k.getLast? ≠ some '/') :
    getMatchingRoute routes p
      = (routes.find? (fun r => matchesRoute r p)).map (fun r => (r, routeParams r p))
    ∧ getMatchingRoute routes p = getMatchingRoute routes (p ++ ['/'])
    ∧ matchesRoute k p = matchesRoute (k ++ ['/']) p
    ∧ routeParams k p = routeParams (k ++ ['/']) p := by
  have hnp : normalizeSlash (p ++ ['/']) = normalizeSlash p := normalizeSlash_concat p hp
  have hnk : normalizeSlash (k ++ ['/']) = normalizeSlash k := normalizeSlash_concat k hk
  refine ⟨getMatchingRoute_eq_find routes p, ?_, ?_, ?_⟩
  · rw [getMatchingRoute_eq_find, getMatchingRoute_eq_find]
    have hmr : ∀ r, matchesRoute r (p ++ ['/']) = matchesRoute r p := by
      intro r; unfold matchesRoute; rw [hnp]
    have hrp : ∀ r, routeParams r (p ++ ['/']) = routeParams r p := by
      intro r; unfold routeParams; rw [hnp]
    rw [show (fun r => matchesRoute r (p ++ ['/'])) = (fun r => matchesRoute r p) from
          funext hmr,
        show (fun r => (r, routeParams r (p ++ ['/']))) = (fun r => (r, routeParams r p)) from
          funext (fun r => by rw [hrp r])]
  · unfold matchesRoute; rw [hnk]
  · unfold routeParams; rw [hnk]

/-- Witness for C1 at a concrete table, path and key (the path check item
also exercises case-insensitive matching). -/
theorem c1_route_matcher_witness :
    getMatchingRoute ["/user/:id".data, "/about".data] "/About".data
      = (( ["/user/:id".data, "/about".data].find?
            (fun r => matchesRoute r "/About".data)).map
          (fun r => (r, routeParams r "/About".data)))
    ∧ getMatchingRoute ["/user/:id".data, "/about".data] "/About".data
      = getMatchingRoute ["/user/:id".data, "/about".data] ("/About".data ++ ['/'])
    ∧ matchesRoute "/user/:id".data "/About".data
      = matchesRoute ("/user/:id".data ++ ['/']) "/About".data
    ∧ routeParams "/user/:id".data "/About".data
      = routeParams ("/user/:id".data ++ ['/']) "/About".data :=
  c1_route_matcher ["/user/:id".data, "/about".data] "/About".data "/user/:id".data
    (by decide) (by decide)

/-- The source's key-by-key reduce equals the spec's shallow merge on the
four decision keys. -/
lemma reduceMerge_eq_specMerge (fields : List (List Char × JSValue)) :
    reduceMerge (defaultDenyResponse.map (fun kv => kv.1)) fields defaultDenyResponse
      = defaultDenyResponse.map
          (fun kv => if keyInObj kv.1 fields then (kv.1, objGet fields kv.1) else kv) := by
  by_cases h1 : keyInObj "allow".data fields <;>
    by_cases h2 : keyInObj "code".data fields <;>
      by_cases h3 : keyInObj "message".data fields <;>
        by_cases h4 : keyInObj "contentType".data fields <;>
          simp [defaultDenyResponse, reduceMerge, upsert, h1, h2, h3, h4]

/-- Claim C2 (counterexample): a middleware whose invocation completes
normally with the value `null` does not make `getFormattedMiddlewareOutput`
return `[null, decision]` at all — in JS `typeof null` is `"object"`, so
`null` reaches the object branch, where `"allow" in null` throws a
`TypeError` outside the function's `try`, rejecting the evaluator itself;
the claim's "any other value gives the default deny" fails at `null`. -/
theorem c2_counterexample_null_return :
    getFormattedMiddlewareOutput (Except.ok JSValue.vNull)
      = Except.error "TypeError: Cannot use in operator to search for allow in null".data
    ∧ getFormattedMiddlewareOutput (Except.ok JSValue.vNull)
        ≠ Except.ok (Except.ok (specMiddlewareDecision JSValue.vNull)) :=
  ⟨rfl, fun h => Except.noConfusion h⟩

/-- Claim C2 (amended): for every middleware invocation that completes
without throwing or rejecting and returns a non-`null` value, the
evaluator resolves `[null, decision]` with the decision given exactly by
the spec's table (`true`/`undefined` allow; `false` the default deny;
string `S` the default deny with message `S`; object `O` the default deny
shallow-merged with whichever of allow/code/message/contentType `O`
defines; any other value the default deny).  A `null` return instead
rejects the evaluator itself. -/
theorem c2_middleware_normalization (v : JSValue) (hv : v ≠ JSValue.vNull) :
    getFormattedMiddlewareOutput (Except.ok v)
      = Except.ok (Except.ok (specMiddlewareDecision v)) := by
  cases v with
  | vNull => exact absurd rfl hv
  | vObj fields =>
      have h : getFormattedMiddlewareOutput (Except.ok (JSValue.vObj fields))
          = Except.ok (Except.ok
              (reduceMerge (defaultDenyResponse.map (fun kv => kv.1)) fields
                defaultDenyResponse)) := rfl
      rw [h, reduceMerge_eq_specMerge]
      rfl
  | vUndefined => rfl
  | vTrue => rfl
  | vFalse => rfl
  | vNum n => rfl
  | vStr s => rfl

/-- Witness for C2 (amended) at the spec's own example: a middleware
returning the string `"nope"` yields the default deny with message
`"nope"`. -/
theorem c2_middleware_normalization_witness :
    getFormattedMiddlewareOutput (Except.ok (JSValue.vStr "nope".data))
      = Except.ok (Except.ok (specMiddlewareDecision (JSValue.vStr "nope".data))) :=
  c2_middleware_normalization (JSValue.vStr "nope".data) (fun h => JSValue.noConfusion h)

/-- Claim C8 (counterexample): evaluating the object `{allow: true}` does
not yield exactly the decision `{allow: true}` — the object branch merges
into a copy of the default deny object, so the result also carries
`code: 401`, the generic message and `contentType: "text/plain"` (with
`allow` overridden to `true`). -/
theorem c8_counterexample_object_allow :
    getFormattedMiddlewareOutput (Except.ok (JSValue.vObj [("allow".data, JSValue.vTrue)]))
      = Except.ok (Except.ok
          [("allow".data, JSValue.vTrue), ("code".data, JSValue.vNum 401),
           ("message".data, JSValue.vStr "This action is not allowed.".data),
           ("contentType".data, JSValue.vStr "text/plain".data)])
    ∧ ([("allow".data, JSValue.vTrue), ("code".data, JSValue.vNum 401),
        ("message".data, JSValue.vStr "This action is not allowed.".data),
        ("contentType".data, JSValue.vStr "text/plain".data)]
        : List (List Char × JSValue)) ≠ [("allow".data, JSValue.vTrue)] :=
  ⟨rfl, fun h => by simpa using congrArg List.length h⟩

/-- Claim C8 (amended): evaluating `true` and `undefined` both yield
exactly `{allow: true}`; evaluating the object `{allow: true}` yields the
default deny object with `allow` overridden to `true` — so all three are
allow decisions (their `allow` field is `true`), but the object case also
carries the default deny's remaining fields. -/
theorem c8_allow_idempotence :
    getFormattedMiddlewareOutput (Except.ok JSValue.vTrue)
      = Except.ok (Except.ok [("allow".data, JSValue.vTrue)])
    ∧ getFormattedMiddlewareOutput (Except.ok JSValue.vUndefined)
      = Except.ok (Except.ok [("allow".data, JSValue.vTrue)])
    ∧ getFormattedMiddlewareOutput (Except.ok (JSValue.vObj [("allow".data, JSValue.vTrue)]))
      = Except.ok (Except.ok (upsert defaultDenyResponse "allow".data JSValue.vTrue))
    ∧ objGet (upsert defaultDenyResponse "allow".data JSValue.vTrue) "allow".data
      = JSValue.vTrue
    ∧ objGet [("allow".data, JSValue.vTrue)] "allow".data = JSValue.vTrue :=
  ⟨rfl, rfl, rfl, rfl, rfl⟩

/-- Claim C4 (counterexample): a loader detected as synchronous that
throws synchronously does NOT propagate out of `getLoaderData` — the
synchronous call sits inside the outer `try`, so the exception is caught
by the outer catch and `getLoaderData` resolves normally to
`[module-load diagnostic, null]`. -/
theorem c4_counterexample_sync_throw_caught :
    getLoaderData (some "x.loader".data) "/r".data
        (Except.ok ⟨false, Except.error "boom".data⟩)
      = Except.ok (some (loaderOuterErrMsg "x.loader".data "/r".data), JSValue.vNull)
    ∧ isOkE (getLoaderData (some "x.loader".data) "/r".data
        (Except.ok ⟨false, Except.error "boom".data⟩)) = true :=
  ⟨rfl, rfl⟩

/-- Claim C4 (amended): a loader detected as synchronous is invoked
directly and a normal return `v` resolves `[null, v]`; an exception
thrown synchronously is caught by the outer catch and resolves to
`[diagnostic, null]` with the module-load diagnostic (the same message as
a missing loader module) — no input makes `getLoaderData` itself throw. -/
theorem c4_sync_loader (lf route : List Char) (f : LoaderFunc) (v : JSValue)
    (e : List Char) (hsync : f.detectedAsync = false) :
    (f.invocation = .ok v →
      getLoaderData (some lf) route (.ok f) = .ok (none, v))
    ∧ (f.invocation = .error e →
        getLoaderData (some lf) route (.ok f)
          = .ok (some (loaderOuterErrMsg lf route), .vNull))
    ∧ ∀ (lf' : Option (List Char)) (route' : List Char)
        (ir : Except (List Char) LoaderFunc),
        isOkE (getLoaderData lf' route' ir) = true := by
  refine ⟨?_, ?_, ?_⟩
  · intro h; simp [getLoaderData, loaderTryBody, hsync, h]
  · intro h; simp [getLoaderData, loaderTryBody, hsync, h]
  · intro lf' route' ir
    cases lf' with
    | none => rfl
    | some l => cases h : loaderTryBody l route' ir <;> simp [getLoaderData, h, isOkE]

/-- Witness for C4 (amended): a synchronous loader returning `42` resolves
to `[null, 42]`. -/
theorem c4_sync_loader_witness :
    getLoaderData (some "x.loader".data) "/r".data
        (Except.ok ⟨false, Except.ok (JSValue.vNum 42)⟩)
      = Except.ok (none, JSValue.vNum 42) :=
  (c4_sync_loader "x.loader".data "/r".data ⟨false, Except.ok (JSValue.vNum 42)⟩
    (JSValue.vNum 42) "boom".data rfl).1 rfl

/-- If the pattern occurs in the string, the replacement text occurs in
the result of `replaceFirst`. -/
lemma replaceFirst_infix (pat rep : List Char) :
    ∀ s : List Char, pat <:+: s → rep <:+: replaceFirst s pat rep := by
  intro s
  induction s with
  | nil =>
      intro h
      have hnil : pat = [] := by
        rcases h with ⟨a, b, hab⟩
        exact List.append_eq_nil.mp (List.append_eq_nil.mp hab).1 |>.2
      subst hnil
      exact ⟨[], [], by simp [replaceFirst]⟩
  | cons x xs ih =>
      intro h
      by_cases hp : pat.isPrefixOf (x :: xs)
      · simp only [replaceFirst, hp, if_true]
        exact ⟨[], _, rfl⟩
      · simp only [replaceFirst, hp, if_false, Bool.false_eq_true]
        have hx : pat <:+: xs := by
          rcases List.infix_cons_iff.mp h with hpre | hinf
          · exact absurd (List.isPrefixOf_iff_prefix.mpr hpre) (by simp [hp])
          · exact hinf
        exact List.infix_cons_iff.mpr (Or.inr (ih hx))

set_option maxRecDepth 8192 in
/-- Claim C3 (counterexample): for a page route whose loader resolves to
an error, the loader's diagnostic does NOT always appear in the body —
the page marker is substituted with `page_error || loader_error ||
page_html`, so when the page renderer also reports an error the page
error wins and the loader's message is dropped (the status is still
200). -/
theorem c3_counterexample_page_error_precedence :
    (servePage c3DemoTemplate "{}".data [] false (some "LOADERR".data)
        (some "PAGEERR".data) none false false).status = 200
    ∧ ¬ ("LOADERR".data <:+: (servePage c3DemoTemplate "{}".data [] false
        (some "LOADERR".data) (some "PAGEERR".data) none false false).body)
    ∧ "PAGEERR".data <:+: (servePage c3DemoTemplate "{}".data [] false
        (some "LOADERR".data) (some "PAGEERR".data) none false false).body := by
  refine ⟨rfl, ?_, ?_⟩ <;> decide

set_option maxRecDepth 8192 in
/-- Claim C3 (amended): for a page route whose loader resolves to an error
and whose page renderer reports none, the served response still has
status 200 and content type `text/html`, the loader's diagnostic message
is substituted at the page placeholder (hence appears in the body
whenever the placeholder survives the two earlier substitutions, which a
well-formed template guarantees), and the hydration script tag is not
injected; the last two conjuncts check the injection end-to-end on a
concrete template.  When the page renderer also fails, its error takes
precedence in the body (see the counterexample), while the 200 status and
the suppressed hydration hold regardless. -/
theorem c3_loader_error_page (template cottonJson wsJs msg : List Char)
    (devMode gcss mcss : Bool) (pageHtml : Option (List Char))
    (hmsg : msg ≠ [])
    (hmarker : "<!--page-->".data <:+:
        replaceFirst (replaceFirst template "<!--scripts-->".data
            (scriptsBlock cottonJson wsJs devMode (some msg) none))
          "<!--css-->".data (cssBlock gcss mcss)) :
    (servePage template cottonJson wsJs devMode (some msg) none pageHtml
        gcss mcss).status = 200
    ∧ (servePage template cottonJson wsJs devMode (some msg) none pageHtml
        gcss mcss).contentType = "text/html".data
    ∧ msg <:+: (servePage template cottonJson wsJs devMode (some msg) none pageHtml
        gcss mcss).body
    ∧ hydrationIncluded none (some msg) = false
    ∧ ¬ (mainjsTag <:+: (servePage c3DemoTemplate "{}".data [] false
        (some "loader failed".data) none none false false).body)
    ∧ "loader failed".data <:+: (servePage c3DemoTemplate "{}".data [] false
        (some "loader failed".data) none none false false).body := by
  refine ⟨rfl, rfl, ?_, ?_, by decide, by decide⟩
  · have hslot : pageSlot none (some msg) pageHtml = msg := by
      simp [pageSlot, truthyOpt, hmsg]
    show msg <:+: replaceFirst
        (replaceFirst (replaceFirst template "<!--scripts-->".data
            (scriptsBlock cottonJson wsJs devMode (some msg) none))
          "<!--css-->".data (cssBlock gcss mcss))
        "<!--page-->".data (pageSlot none (some msg) pageHtml)
    rw [hslot]
    exact replaceFirst_infix _ _ _ hmarker
  · simp [hydrationIncluded, truthyOpt, hmsg]

set_option maxRecDepth 8192 in
/-- Witness for C3 (amended) at a concrete template and loader
diagnostic. -/
theorem c3_loader_error_page_witness :
    (servePage c3DemoTemplate "{}".data [] false (some "loader failed".data)
        none none false false).status = 200
    ∧ "loader failed".data <:+: (servePage c3DemoTemplate "{}".data [] false
        (some "loader failed".data) none none false false).body :=
  ⟨(c3_loader_error_page c3DemoTemplate "{}".data [] "loader failed".data
      false false false none (by decide) (by decide)).1,
   (c3_loader_error_page c3DemoTemplate "{}".data [] "loader failed".data
      false false false none (by decide) (by decide)).2.2.1⟩

/-- Claim C9: for a route table containing the key `/user/:id`, matching
the request path `/user/42`, with or without a trailing slash, returns the
route `/user/:id` with parameter mapping `id ↦ 42`. -/
theorem c9_user_id_params :
    getMatchingRoute ["/".data, "/user/:id".data] "/user/42".data
      = some ("/user/:id".data, [("id".data, "42".data)])
    ∧ getMatchingRoute ["/".data, "/user/:id".data] "/user/42/".data
      = some ("/user/:id".data, [("id".data, "42".data)]) := by
  constructor <;> decide

/-- The response step always has the header (it was set before the module
resolution). -/
lemma allowHeader_response (ex : ApiExport) (u mname : List Char) :
    (serveApiResponse ex u mname).allowMethodsHeader = true := by
  unfold serveApiResponse
  split
  · rfl
  · rfl
  · rfl

/-- The secondary-middleware step always has the header. -/
lemma allowHeader_secondary (ex : ApiExport) (u mname : List Char) :
    (serveApiSecondary ex u mname).allowMethodsHeader = true := by
  unfold serveApiSecondary
  split
  · exact allowHeader_response _ _ _
  · split
    · rfl
    · rfl
    · split
      · exact allowHeader_response _ _ _
      · rfl

/-- The method-check step always has the header. -/
lemma allowHeader_methodCheck (req : ApiRequest) (ex : ApiExport) (u mname : List Char) :
    (serveApiMethodCheck req ex u mname).allowMethodsHeader = true := by
  unfold serveApiMethodCheck
  split
  · split
    · rfl
    · exact allowHeader_secondary _ _ _
  · exact allowHeader_secondary _ _ _

/-- The named-export lookup step always has the header. -/
lemma allowHeader_lookup (req : ApiRequest) (m : ApiModule) (u mname : List Char) :
    (serveApiLookup req m u mname).allowMethodsHeader = true := by
  unfold serveApiLookup
  split
  · rfl
  · exact allowHeader_methodCheck _ _ _ _

/-- Every outcome from the import onward has the header. -/
lemma allowHeader_dispatch (req : ApiRequest) (ir : Except (List Char) ApiModule)
    (u mname : List Char) :
    (serveApiDispatch req ir u mname).allowMethodsHeader = true := by
  unfold serveApiDispatch
  split
  · rfl
  · split
    · exact allowHeader_lookup _ _ _ _
    · split
      · rfl
      · rfl
      · split
        · exact allowHeader_lookup _ _ _ _
        · rfl

/-- When the primary-middleware stage passes, the dispatch continues with
the named-export lookup. -/
lemma dispatch_primaryPasses (req : ApiRequest) (m : ApiModule) (u mname : List Char)
    (h : primaryPasses m = true) :
    serveApiDispatch req (.ok m) u mname = serveApiLookup req m u mname := by
  unfold primaryPasses at h
  cases hd : m.defaultExport with
  | none => simp [serveApiDispatch, hd]
  | some f =>
      rw [hd] at h
      cases hf : getFormattedMiddlewareOutput f.invocation with
      | error e => simp [hf] at h
      | ok inner =>
          cases inner with
          | error e => simp [hf] at h
          | ok out =>
              simp [hf] at h
              simp [serveApiDispatch, hd, hf, h]

/-- Claim C5: a named export whose truthy `method` constraint fails the
case-insensitive test against the actual request method makes the
dispatcher answer 404 with a message containing both the expected
constraint string and the actual method name, without invoking the
`response` handler. -/
theorem c5_method_mismatch_404 (req : ApiRequest) (m : ApiModule)
    (u mname ms actual : List Char) (ex : ApiExport)
    (hparse : parseApiPath req.pathname = .dispatch u mname)
    (hprim : primaryPasses m = true)
    (hlook : m.exports.find? (fun kv => kv.1 = mname) = some (mname, ex))
    (hm : ex.method = some ms) (hms : ms ≠ [])
    (hactual : req.method = some actual)
    (hfail : regexTestI ms actual = false) :
    serveApi req (.ok m)
      = ⟨true, false, some ⟨404, "text/plain".data, methodMismatchMsg mname ms actual u⟩⟩
    ∧ ms <:+: methodMismatchMsg mname ms actual u
    ∧ actual <:+: methodMismatchMsg mname ms actual u
    ∧ (serveApi req (.ok m)).invokedHandler = false := by
  have hempty : ms.isEmpty = false := by
    cases ms with
    | nil => exact absurd rfl hms
    | cons a t => rfl
  have hmain : serveApi req (.ok m)
      = ⟨true, false, some ⟨404, "text/plain".data, methodMismatchMsg mname ms actual u⟩⟩ := by
    unfold serveApi
    rw [hparse]
    show serveApiDispatch req (.ok m) u mname = _
    rw [dispatch_primaryPasses req m u mname hprim]
    unfold serveApiLookup
    rw [hlook]
    show serveApiMethodCheck req ex u mname = _
    unfold serveApiMethodCheck
    rw [hm, hactual]
    simp [hempty, hfail]
  refine ⟨hmain, ?_, ?_, by rw [hmain]⟩
  · exact ⟨"Endpoint '".data ++ mname ++ "' expected HTTP ".data,
      " but received HTTP ".data ++ actual ++ " at '".data ++ u ++ "'.".data,
      by simp [methodMismatchMsg]⟩
  · exact ⟨"Endpoint '".data ++ mname ++ "' expected HTTP ".data ++ ms
        ++ " but received HTTP ".data,
      " at '".data ++ u ++ "'.".data,
      by simp [methodMismatchMsg]⟩

/-- Witness for C5: `/api/users/get` with export `get` constrained to
POST and an actual GET request answers the 404 mismatch. -/
theorem c5_method_mismatch_404_witness :
    serveApi ⟨"/api/users/get".data, some "GET".data⟩
        (Except.ok ⟨none, [("get".data,
          ⟨some "POST".data, none, some (Except.ok ())⟩)]⟩)
      = ⟨true, false, some ⟨404, "text/plain".data,
          methodMismatchMsg "get".data "POST".data "GET".data "api/users".data⟩⟩ :=
  (c5_method_mismatch_404 ⟨"/api/users/get".data, some "GET".data⟩
    ⟨none, [("get".data, ⟨some "POST".data, none, some (Except.ok ())⟩)]⟩
    "api/users".data "get".data "POST".data "GET".data
    ⟨some "POST".data, none, some (Except.ok ())⟩
    rfl rfl rfl rfl (by decide) rfl rfl).1

/-- Claim C6 (counterexample): the `Access-Control-Allow-Methods` header
is NOT set on the early 400 rejections — both 400 paths return before the
`setHeader` call, refuting "regardless of the dispatch outcome (including
400 rejections)". -/
theorem c6_counterexample_400_no_header :
    (serveApi ⟨"/api/".data, some "GET".data⟩
        (Except.ok ⟨none, []⟩)).allowMethodsHeader = false
    ∧ (serveApi ⟨"/api/".data, some "GET".data⟩ (Except.ok ⟨none, []⟩)).written
        = some ⟨400, "text/plain".data, invalidApiMsg "api".data⟩
    ∧ (serveApi ⟨"/api/users/".data, some "GET".data⟩
        (Except.ok ⟨none, []⟩)).allowMethodsHeader = false
    ∧ (serveApi ⟨"/api/users/".data, some "GET".data⟩ (Except.ok ⟨none, []⟩)).written
        = some ⟨400, "text/plain".data, noEndpointMsg "api/users".data⟩ :=
  ⟨rfl, rfl, rfl, rfl⟩

/-- Claim C6 (amended): `serveApi` sets the `Access-Control-Allow-Methods`
header after the two early path rejections and before the module import,
so the header is present for every dispatch outcome from the import
onward (import failures, middleware errors and denials, the
missing-export 500, the method-mismatch 404, handler invocation and
handler failures) — but the two early 400 rejections answer without the
header. -/
theorem c6_allow_methods_header (req : ApiRequest) (ir : Except (List Char) ApiModule)
    (u mname u' u'' : List Char) :
    (parseApiPath req.pathname = .dispatch u mname →
        (serveApi req ir).allowMethodsHeader = true)
    ∧ (parseApiPath req.pathname = .invalidApi u' →
        (serveApi req ir).allowMethodsHeader = false
        ∧ (serveApi req ir).written = some ⟨400, "text/plain".data, invalidApiMsg u'⟩)
    ∧ (parseApiPath req.pathname = .noEndpoint u'' →
        (serveApi req ir).allowMethodsHeader = false
        ∧ (serveApi req ir).written = some ⟨400, "text/plain".data, noEndpointMsg u''⟩) := by
  refine ⟨?_, ?_, ?_⟩ <;> intro h <;> unfold serveApi <;> rw [h]
  · exact allowHeader_dispatch _ _ _ _
  · exact ⟨rfl, rfl⟩
  · exact ⟨rfl, rfl⟩

/-- Witness for C6 (amended): a dispatched request carries the header
(here a failing module resolution — a 500 — still has it). -/
theorem c6_allow_methods_header_witness :
    (serveApi ⟨"/api/users/get".data, some "GET".data⟩
        (Except.error "module not found".data)).allowMethodsHeader = true :=
  (c6_allow_methods_header ⟨"/api/users/get".data, some "GET".data⟩
    (Except.error "module not found".data) "api/users".data "get".data [] []).1 rfl

/-- Claim C7 (counterexample): absence of the named method export does
NOT always produce the 500 "not defined or exported" response — when the
module's default export denies, the primary middleware answers first
(401 here) and the named-export lookup is never reached. -/
theorem c7_counterexample_primary_deny_preempts :
    (serveApi ⟨"/api/users/get".data, some "GET".data⟩
        (Except.ok ⟨some ⟨Except.ok JSValue.vFalse⟩, []⟩)).written
      = some ⟨401, "text/plain".data, "PRIMARY: This action is not allowed.".data⟩
    ∧ (serveApi ⟨"/api/users/get".data, some "GET".data⟩
        (Except.ok ⟨some ⟨Except.ok JSValue.vFalse⟩, []⟩)).written
      ≠ some ⟨500, "text/plain".data, notDefinedMsg "get".data "api/users".data⟩ :=
  ⟨rfl, fun h => by
    have h2 := (show (serveApi ⟨"/api/users/get".data, some "GET".data⟩
        (Except.ok ⟨some ⟨Except.ok JSValue.vFalse⟩, []⟩)).written
        = some ⟨401, "text/plain".data,
            "PRIMARY: This action is not allowed.".data⟩ from rfl).symm.trans h
    simp at h2⟩

/-- Claim C7 (amended): absence of a default export is never an error —
it makes the primary-middleware stage pass trivially; and whenever the
primary-middleware stage passes (no default export, or its evaluation
allows), absence of the named export for the method name always produces
the 500 "not defined or exported" response, while its presence always
continues the dispatch (with the method check) — the two conditions are
never conflated.  When a present default export denies or fails, that
outcome answers first (see the counterexample). -/
theorem c7_default_vs_named_export (req : ApiRequest) (m : ApiModule)
    (u mname : List Char)
    (hparse : parseApiPath req.pathname = .dispatch u mname) :
    (m.defaultExport = none → primaryPasses m = true)
    ∧ (primaryPasses m = true →
        m.exports.find? (fun kv => kv.1 = mname) = none →
        serveApi req (.ok m)
          = ⟨true, false, some ⟨500, "text/plain".data, notDefinedMsg mname u⟩⟩)
    ∧ (primaryPasses m = true →
        ∀ kv, m.exports.find? (fun kv2 => kv2.1 = mname) = some kv →
          serveApi req (.ok m) = serveApiMethodCheck req kv.2 u mname) := by
  refine ⟨?_, ?_, ?_⟩
  · intro h; unfold primaryPasses; rw [h]
  · intro hp hnone
    unfold serveApi
    rw [hparse]
    show serveApiDispatch req (.ok m) u mname = _
    rw [dispatch_primaryPasses req m u mname hp]
    unfold serveApiLookup
    rw [hnone]
  · intro hp kv hkv
    unfold serveApi
    rw [hparse]
    show serveApiDispatch req (.ok m) u mname = _
    rw [dispatch_primaryPasses req m u mname hp]
    unfold serveApiLookup
    rw [hkv]

/-- Witness for C7 (amended): a module with no default export and no
named exports answers the 500 "not defined or exported". -/
theorem c7_default_vs_named_export_witness :
    serveApi ⟨"/api/users/get".data, some "GET".data⟩ (Except.ok ⟨none, []⟩)
      = ⟨true, false, some ⟨500, "text/plain".data,
          notDefinedMsg "get".data "api/users".data⟩⟩ :=
  (c7_default_vs_named_export ⟨"/api/users/get".data, some "GET".data⟩
    ⟨none, []⟩ "api/users".data "get".data rfl).2.1 rfl rfl

/-- Claim C10 (implicit): the HTTP-method constraint is interpreted as a
case-insensitive regular expression tested for a match anywhere inside
the actual request method (defaulting to GET when the request method is
absent) — pattern containment, not equality: the constraint `T` passes
for GET, POST, PUT and DELETE although `T` equals none of them,
`GET|POST` passes for both GET and POST; end-to-end, a `T`-constrained
endpoint serves a GET request, an absent request method is checked as
GET, and a `GET|POST` constraint still 404s a DELETE request. -/
theorem c10_method_constraint_regex_containment :
    regexTestI "T".data "GET".data = true
    ∧ regexTestI "T".data "POST".data = true
    ∧ regexTestI "T".data "PUT".data = true
    ∧ regexTestI "T".data "DELETE".data = true
    ∧ "T".data ≠ "GET".data ∧ "T".data ≠ "POST".data
    ∧ "T".data ≠ "PUT".data ∧ "T".data ≠ "DELETE".data
    ∧ regexTestI "GET|POST".data "GET".data = true
    ∧ regexTestI "GET|POST".data "POST".data = true
    ∧ regexTestI "get".data "GET".data = true
    ∧ (serveApi ⟨"/api/users/get".data, some "GET".data⟩
        (Except.ok ⟨none, [("get".data,
          ⟨some "T".data, none, some (Except.ok ())⟩)]⟩)).invokedHandler = true
    ∧ (serveApi ⟨"/api/users/get".data, none⟩
        (Except.ok ⟨none, [("get".data,
          ⟨some "GET".data, none, some (Except.ok ())⟩)]⟩)).invokedHandler = true
    ∧ (serveApi ⟨"/api/users/get".data, some "DELETE".data⟩
        (Except.ok ⟨none, [("get".data,
          ⟨some "GET|POST".data, none, some (Except.ok ())⟩)]⟩)).written
      = some ⟨404, "text/plain".data,
          methodMismatchMsg "get".data "GET|POST".data "DELETE".data "api/users".data⟩ := by
  refine ⟨rfl, rfl, rfl, rfl, by decide, by decide, by decide, by decide,
    rfl, rfl, rfl, rfl, rfl, rfl⟩

end Cotton
